import Mathlib

/-!
Verification of the BookVerse browser client (`script.js`): a shallow
embedding of its catalog client, question-answering client and UI
controller, with theorems checking the natural-language specification
against the code.

Remote I/O is modelled by outcome types: each `fetch` interaction is
replaced by a value describing what the network returned (transport
failure, HTTP error status, malformed body, or a parsed payload), and the
JavaScript functions become total Lean functions of those outcomes.
JavaScript truthiness is modelled explicitly: absent fields are `Option`
`none`, empty strings and the number zero are falsy where the source
tests them with `||` or `?:`, and arrays are always truthy (even empty).
-/

namespace BookVerse

/-- JavaScript `a || d` for an optional string field: `undefined`/`null`
and the empty string are falsy. -/
def jsOr : Option String → String → String
  | some s, d => if s = "" then d else s
  | none, d => d

/-- JavaScript template interpolation of a possibly-undefined string:
interpolating `undefined` yields the literal text "undefined". -/
def jsShowOpt : Option String → String
  | some s => s
  | none => "undefined"

/-- `Array.prototype.join(', ')`. -/
def joinComma (l : List String) : String := String.intercalate ", " l

/-- Whether `pat` occurs as a contiguous run inside `l`
(the list-of-characters core of JavaScript `String.includes`). -/
def containsSeq (pat : List Char) : List Char → Bool
  | [] => pat.isEmpty
  | c :: rest => pat.isPrefixOf (c :: rest) || containsSeq pat rest

/-- JavaScript `s.includes(sub)`. -/
def strIncludes (s sub : String) : Bool := containsSeq sub.data s.data

/-- ASCII lowercase of one character (every string literal in the source
that reaches `toLowerCase` is ASCII). -/
def charToLower (c : Char) : Char :=
  if 65 ≤ c.toNat ∧ c.toNat ≤ 90 then Char.ofNat (c.toNat + 32) else c

/-- JavaScript `s.toLowerCase()` on the source's ASCII data. -/
def strToLower (s : String) : String := String.mk (s.data.map charToLower)

/-- Author detail object built by `getBookDetails`
(`script.js` lines 73-84): name, biography, birth date. -/
structure AuthorDetail where
  name : String
  bio : String
  birth_date : String
deriving DecidableEq, Repr

/-- The normalized book record produced by `BooksAPI` (search path lines
16-28, detail path lines 90-108, samples lines 121-132). Fields that a
given producer leaves `undefined` are `none` / `[]` here; the `links`
field of the detail path is omitted because no code ever reads it. -/
structure BookRecord where
  id : String
  title : String
  authors : List String
  publishedDate : String
  description : String
  categories : List String
  thumbnail : Option String
  previewLink : String
  pageCount : Option Nat
  averageRating : ℚ
  isbn : Option String
  subjects : Option (List String)
  firstSentence : Option String
  authorDetails : Option (List AuthorDetail)
  excerpts : List String
deriving DecidableEq, Repr

/-- The single embedded sample book (`script.js` lines 121-132). -/
def sampleHarryPotter : BookRecord :=
  { id := "OL82565W"
    title := "Harry Potter and the Philosopher\x27s Stone"
    authors := ["J.K. Rowling"]
    publishedDate := "1997"
    description := "Harry Potter discovers he is a wizard and begins his education at Hogwarts School of Witchcraft and Wizardry."
    categories := ["Fantasy", "Fiction"]
    thumbnail := some "https://covers.openlibrary.org/b/id/10514553-M.jpg"
    previewLink := "https://openlibrary.org/works/OL82565W"
    pageCount := some 223
    averageRating := (4.5 : ℚ)
    isbn := none
    subjects := none
    firstSentence := none
    authorDetails := none
    excerpts := [] }

/-- The embedded sample list `allBooks` (`script.js` lines 120-133). -/
def sampleBooksList : List BookRecord := [sampleHarryPotter]

/-- The case-insensitive substring filter used by `getSampleBooks`
(`script.js` lines 137-140): the query matches a book if it occurs in the
lowercased title or in one of the lowercased author names. -/
def matchesQuery (query : String) (b : BookRecord) : Bool :=
  strIncludes (strToLower b.title) (strToLower query) ||
  b.authors.any (fun a => strIncludes (strToLower a) (strToLower query))

/-- `BooksAPI.getSampleBooks` (`script.js` lines 119-144): with a truthy
(non-empty) query, the sample list filtered by `matchesQuery`; otherwise
the whole sample list. -/
def getSampleBooks (query : String) : List BookRecord :=
  if query = "" then sampleBooksList
  else sampleBooksList.filter (fun b => matchesQuery query b)

/-- One document of the OpenLibrary search response (`data.docs`
entries). Absent JSON fields are `none`. -/
structure SearchDoc where
  key : Option String
  title : Option String
  author_name : Option (List String)
  first_publish_year : Option Nat
  description : Option String
  subject : Option (List String)
  cover_i : Option Nat
  number_of_pages_median : Option Nat
  isbn : Option (List String)
deriving Repr

/-- Outcome of the remote search request: transport failure, non-success
HTTP status, body that is not JSON, or a parsed body whose `docs` field
may be absent. -/
inductive SearchOutcome where
  | netFailure
  | httpError (status : Nat)
  | badJson
  | ok (docs : Option (List SearchDoc))

/-- The per-document mapping of `BooksAPI.searchBooks`
(`script.js` lines 16-28). `index` is the position in `docs`. -/
def docToBook (index : Nat) (d : SearchDoc) : BookRecord :=
  { id := jsOr d.key ("book-" ++ toString index)
    title := jsOr d.title "Unknown Title"
    authors := d.author_name.getD ["Unknown Author"]
    publishedDate :=
      match d.first_publish_year with
      | some y => if y = 0 then "Unknown" else toString y
      | none => "Unknown"
    description := jsOr d.description "Description available in detailed view"
    categories :=
      match d.subject with
      | some subj => subj.take 3
      | none => ["General"]
    thumbnail :=
      match d.cover_i with
      | some c =>
        if c = 0 then none
        else some ("https://covers.openlibrary.org/b/id/" ++ toString c ++ "-M.jpg")
      | none => none
    previewLink := "https://openlibrary.org" ++ jsShowOpt d.key
    pageCount :=
      match d.number_of_pages_median with
      | some n => if n = 0 then none else some n
      | none => none
    averageRating := (4.0 : ℚ)
    isbn :=
      match d.isbn with
      | some (i :: _) => some i
      | some [] => none
      | none => none
    subjects := none
    firstSentence := none
    authorDetails := none
    excerpts := [] }

/-- The `try`-block of `BooksAPI.searchBooks` (`script.js` lines 4-35):
each throwing step becomes an `Except.error`; a parsed body with a
non-empty `docs` list is mapped through `docToBook`, and an absent or
empty `docs` list already falls back to the samples inside the block. -/
def searchBooksE (o : SearchOutcome) (query : String) :
    Except String (List BookRecord) :=
  match o with
  | SearchOutcome.netFailure => Except.error "fetch failed"
  | SearchOutcome.httpError status =>
      Except.error ("OpenLibrary API error: " ++ toString status)
  | SearchOutcome.badJson => Except.error "invalid json"
  | SearchOutcome.ok docs =>
    match docs with
    | some ds =>
      if ds.length > 0 then
        Except.ok (ds.enum.map (fun p => docToBook p.1 p.2))
      else Except.ok (getSampleBooks query)
    | none => Except.ok (getSampleBooks query)

/-- `BooksAPI.searchBooks` with its `catch` (`script.js` lines 36-39):
any error from the `try`-block is converted to the sample fallback. -/
def searchBooks (o : SearchOutcome) (query : String) : List BookRecord :=
  match searchBooksE o query with
  | Except.ok books => books
  | Except.error _ => getSampleBooks query

/-- The remote lookup yielded zero results or failed: transport failure,
non-success status, malformed body, absent `docs`, or empty `docs`. -/
def remoteEmptyOrFailed : SearchOutcome → Bool
  | SearchOutcome.ok (some ds) => ds.isEmpty
  | SearchOutcome.ok none => true
  | _ => true

lemma containsSeq_nil (l : List Char) : containsSeq [] l = true := by
  cases l <;> simp [containsSeq, List.isPrefixOf]

lemma strToLower_empty : strToLower "" = "" := rfl

lemma matchesQuery_empty (b : BookRecord) : matchesQuery "" b = true := by
  simp [matchesQuery, strToLower_empty, strIncludes, containsSeq_nil]

lemma mem_getSampleBooks_matches {q : String} {b : BookRecord}
    (hb : b ∈ getSampleBooks q) : matchesQuery q b = true := by
  unfold getSampleBooks at hb
  by_cases hq : q = ""
  · subst hq
    exact matchesQuery_empty b
  · simp [hq] at hb
    exact hb.2

/-- C1: for every query whose remote lookup yields zero results or fails,
`searchBooks` returns the embedded sample list filtered by the
case-insensitive substring matcher, and every entry of that returned list
matches the query substring in its title or one of its author names. -/
theorem c1_zero_results_fallback_matches (o : SearchOutcome) (q : String)
    (h : remoteEmptyOrFailed o = true) :
    searchBooks o q = getSampleBooks q ∧
    ∀ b ∈ searchBooks o q, matchesQuery q b = true := by
  have hfall : searchBooks o q = getSampleBooks q := by
    cases o with
    | netFailure => rfl
    | httpError status => rfl
    | badJson => rfl
    | ok docs =>
      cases docs with
      | none => rfl
      | some ds =>
        cases ds with
        | nil => rfl
        | cons d rest => simp [remoteEmptyOrFailed] at h
  refine ⟨hfall, ?_⟩
  intro b hb
  rw [hfall] at hb
  exact mem_getSampleBooks_matches hb

/-- Witness for C1: a concrete transport failure on query "rowling"
returns the filtered sample list, whose single entry matches the query in
its author name. -/
theorem c1_witness :
    searchBooks SearchOutcome.netFailure "rowling" = getSampleBooks "rowling" ∧
    matchesQuery "rowling" sampleHarryPotter = true :=
  ⟨(c1_zero_results_fallback_matches SearchOutcome.netFailure "rowling" rfl).1,
   by decide⟩

/-- C2: for every query and every outcome of the remote call, the
boundary of `searchBooks` never propagates an error: either the
`try`-block succeeded and its list is returned unchanged, or the
`try`-block raised and the `catch` returns the sample fallback list. -/
theorem c2_never_raises (o : SearchOutcome) (q : String) :
    searchBooksE o q = Except.ok (searchBooks o q) ∨
    ((∃ e, searchBooksE o q = Except.error e) ∧
      searchBooks o q = getSampleBooks q) := by
  cases o with
  | netFailure => exact Or.inr ⟨⟨"fetch failed", rfl⟩, rfl⟩
  | httpError status =>
      exact Or.inr ⟨⟨"OpenLibrary API error: " ++ toString status, rfl⟩, rfl⟩
  | badJson => exact Or.inr ⟨⟨"invalid json", rfl⟩, rfl⟩
  | ok docs =>
    cases docs with
    | none => exact Or.inl rfl
    | some ds =>
      by_cases hl : ds.length > 0
      · left
        simp [searchBooks, searchBooksE, hl]
      · left
        simp [searchBooks, searchBooksE, hl]

/-- The request URL built by `BooksAPI.searchBooks` (`script.js` line 8):
`encodeURIComponent` is kept abstract as `enc`; the `startIndex`
parameter of the function is accepted (line 3) but never used — the URL
always hardcodes `page=1`. -/
def searchRequestUrl (enc : String → String) (query : String)
    (startIndex maxResults : Nat) : String :=
  "https://openlibrary.org/search.json?q=" ++ enc query ++
    "&page=1&limit=" ++ toString maxResults

/-- The offset `BookVerseApp.loadBooks` passes to the search
(`script.js` line 412): `currentPage * 12`. -/
def loadBooksOffset (currentPage : Nat) : Nat := currentPage * 12

/-- C3 evaluation: the request URL is independent of the offset. The
initial search (page 0, offset 0) and the "load more" re-trigger
(page 1, offset 12) issue the identical request, because the URL
hardcodes `page=1` and ignores `startIndex`. -/
theorem c3_load_more_requests_same_page (enc : String → String) :
    searchRequestUrl enc "harry potter" (loadBooksOffset 0) 12 =
      searchRequestUrl enc "harry potter" (loadBooksOffset 1) 12 :=
  rfl

/-- Raw author JSON from the per-author endpoint
(`script.js` lines 71-77). -/
structure AuthorData where
  name : Option String
  bio : Option String
  birth_date : Option String

/-- Placeholder an author degrades to when its lookup fails
(`script.js` lines 79-83). -/
def placeholderAuthor : AuthorDetail :=
  { name := "Unknown Author"
    bio := "No biography available"
    birth_date := "Unknown" }

/-- The per-author mapping inside `getBookDetails` (`script.js` lines
69-85): a successful lookup is normalized field-by-field with `||`
defaults, a failed lookup (caught by the inner `catch`) becomes the
placeholder. -/
def resolveAuthor (r : Except Unit AuthorData) : AuthorDetail :=
  match r with
  | Except.ok a =>
    { name := jsOr a.name "Unknown Author"
      bio := jsOr a.bio "No biography available"
      birth_date := jsOr a.birth_date "Unknown" }
  | Except.error _ => placeholderAuthor

/-- The `Promise.all` fan-out over the work's author references
(`script.js` lines 68-86); each element of `rs` is the outcome of one
author lookup. -/
def fetchAuthorDetails (rs : List (Except Unit AuthorData)) : List AuthorDetail :=
  rs.map resolveAuthor

/-- JavaScript `String.replace` with a string pattern: replaces only the
first occurrence. -/
def replaceFirstList (pat repl : List Char) : List Char → List Char
  | [] => []
  | c :: rest =>
    if pat.isPrefixOf (c :: rest) then repl ++ (c :: rest).drop pat.length
    else c :: replaceFirstList pat repl rest

/-- `bookId.replace('/works/', '')` (`script.js` line 47). -/
def cleanWorkId (bookId : String) : String :=
  String.mk (replaceFirstList "/works/".data "".data bookId.data)

/-- The work's `description` field, which is either a plain string or a
nested `{value: ...}` object (`script.js` lines 58-62). -/
inductive DescField where
  | str (s : String)
  | obj (value : Option String)

/-- `fullDescription` normalization (`script.js` lines 57-62): falsy
descriptions keep the default, objects fall back through `.value`. -/
def fullDescription : Option DescField → String
  | none => "No description available"
  | some (DescField.str s) => if s = "" then "No description available" else s
  | some (DescField.obj v) => jsOr v "Description available"

/-- Parsed work JSON from the detail endpoint, with each author
reference paired with the outcome of its secondary lookup. -/
structure WorkData where
  title : Option String
  description : Option DescField
  authors : List (Except Unit AuthorData)
  first_publish_date : Option String
  subjects : Option (List String)
  covers : Option (List Nat)
  number_of_pages : Option Nat
  first_sentence : Option String
  excerpts : Option (List String)

/-- The record assembled on the success path of `getBookDetails`
(`script.js` lines 64-108). -/
def buildDetailRecord (bookId : String) (w : WorkData) : BookRecord :=
  let cleanId := cleanWorkId bookId
  let authorDetails :=
    if w.authors.isEmpty then [] else fetchAuthorDetails w.authors
  let authors :=
    if w.authors.isEmpty then ["Unknown Author"]
    else authorDetails.map (fun a => a.name)
  { id := cleanId
    title := jsOr w.title "Unknown Title"
    authors := authors
    publishedDate := jsOr w.first_publish_date "Unknown"
    description := fullDescription w.description
    categories :=
      match w.subjects with
      | some subj => subj.take 5
      | none => ["General"]
    thumbnail :=
      match w.covers with
      | some (c :: _) =>
        if c = 0 then none
        else some ("https://covers.openlibrary.org/b/id/" ++ toString c ++ "-L.jpg")
      | _ => none
    previewLink := "https://openlibrary.org/works/" ++ cleanId
    pageCount := w.number_of_pages
    averageRating := (4.0 : ℚ)
    isbn := none
    subjects := some (w.subjects.getD [])
    firstSentence :=
      match w.first_sentence with
      | some s => if s = "" then none else some s
      | none => none
    authorDetails := some authorDetails
    excerpts := w.excerpts.getD [] }

/-- Outcome of the overall detail fetch: the `try`-block of
`getBookDetails` either parses a work or throws. -/
inductive DetailOutcome where
  | netFailure
  | httpError (status : Nat)
  | badJson
  | ok (w : WorkData)

/-- The overall fetch failed (any thrown error reaching the outer
`catch` of `getBookDetails`, `script.js` lines 113-116). -/
def detailFailed : DetailOutcome → Bool
  | DetailOutcome.ok _ => false
  | _ => true

/-- `BooksAPI.getBookDetails` (`script.js` lines 42-117). `none` models
the JavaScript `undefined` that `find(...) || [0]` could produce if the
sample list were empty. -/
def getBookDetails (o : DetailOutcome) (bookId : String) : Option BookRecord :=
  match o with
  | DetailOutcome.ok w => some (buildDetailRecord bookId w)
  | _ =>
    match (getSampleBooks "").find? (fun b => b.id == bookId) with
    | some b => some b
    | none => (getSampleBooks "").head?

/-- C4: for every identifier, a failed detail fetch returns the sample
record whose id matches the identifier, or the first sample record if
none matches — with a single sample both are `sampleHarryPotter` — and
that record is non-empty (never `none`, with non-empty id and title). -/
theorem c4_details_fallback_nonempty (o : DetailOutcome) (bookId : String)
    (h : detailFailed o = true) :
    getBookDetails o bookId = some sampleHarryPotter ∧
    sampleHarryPotter.id ≠ "" ∧ sampleHarryPotter.title ≠ "" := by
  refine ⟨?_, by decide, by decide⟩
  have hsamples : getSampleBooks "" = [sampleHarryPotter] := rfl
  cases o with
  | ok w => simp [detailFailed] at h
  | netFailure =>
    simp only [getBookDetails, hsamples, List.find?]
    by_cases hid : sampleHarryPotter.id == bookId <;> simp [hid]
  | httpError status =>
    simp only [getBookDetails, hsamples, List.find?]
    by_cases hid : sampleHarryPotter.id == bookId <;> simp [hid]
  | badJson =>
    simp only [getBookDetails, hsamples, List.find?]
    by_cases hid : sampleHarryPotter.id == bookId <;> simp [hid]

/-- Witness for C4: a transport failure on the malformed identifier
"not-a-real-id" still yields the sample record. -/
theorem c4_witness :
    getBookDetails DetailOutcome.netFailure "not-a-real-id" =
      some sampleHarryPotter :=
  (c4_details_fallback_nonempty DetailOutcome.netFailure "not-a-real-id" rfl).1

/-- C5: author lookups degrade independently. The fan-out preserves the
author count; the author at a failing position resolves to the
placeholder while every successful position resolves to its fetched
data; and the overall detail operation still returns a record for every
work, whatever the author outcomes. -/
theorem c5_author_failure_degrades (rs : List (Except Unit AuthorData))
    (i : Nat) (h : i < rs.length) :
    (fetchAuthorDetails rs).length = rs.length ∧
    (fetchAuthorDetails rs).get ⟨i, by simpa [fetchAuthorDetails] using h⟩ =
      resolveAuthor (rs.get ⟨i, h⟩) ∧
    (rs.get ⟨i, h⟩ = Except.error () →
      resolveAuthor (rs.get ⟨i, h⟩) = placeholderAuthor) ∧
    (∀ (w : WorkData) (bookId : String),
      getBookDetails (DetailOutcome.ok w) bookId =
        some (buildDetailRecord bookId w)) := by
  refine ⟨by simp [fetchAuthorDetails], ?_, ?_, fun w bookId => rfl⟩
  · simp [fetchAuthorDetails]
  · intro herr
    rw [herr]
    rfl

/-- The author-outcome list used by the C5 witness: one successful
lookup followed by one failed lookup. -/
def authorOutcomesExample : List (Except Unit AuthorData) :=
  [Except.ok { name := some "J.K. Rowling", bio := none, birth_date := some "31 July 1965" },
   Except.error ()]

/-- Witness for C5: among two lookups, the failing second one degrades
to the placeholder and the fan-out still yields both entries. -/
theorem c5_witness :
    (fetchAuthorDetails authorOutcomesExample).length = 2 ∧
    (fetchAuthorDetails authorOutcomesExample).get ⟨1, by decide⟩ =
      placeholderAuthor := by
  have h := c5_author_failure_degrades authorOutcomesExample 1 (by decide)
  exact ⟨h.1, h.2.1.trans (h.2.2.1 rfl)⟩

/-- ASCII whitespace test for the `trim` model. -/
def isWs (c : Char) : Bool := c = ' ' || c = '\n' || c = '\t' || c = '\r'

/-- JavaScript `s.trim()` on the source's ASCII data: strips leading and
trailing whitespace. -/
def strTrim (s : String) : String :=
  String.mk (((s.data.dropWhile isWs).reverse.dropWhile isWs).reverse)

/-- `${book.pageCount || 'Unknown'}`: absent page counts and the falsy
page count `0` both print "Unknown". -/
def pageCountText (b : BookRecord) : String :=
  match b.pageCount with
  | some n => if n = 0 then "Unknown" else toString n
  | none => "Unknown"

/-- The SUBJECTS line of the prompt (`script.js` line 219). An array is
truthy in JavaScript even when empty, so a present-but-empty subjects
list still emits the line, with an empty value; only an absent field
takes the `'No subjects available'` branch. -/
def subjectsSection (b : BookRecord) : String :=
  match b.subjects with
  | some subj => "SUBJECTS: " ++ joinComma (subj.take 10)
  | none => "SUBJECTS: No subjects available"

/-- The FIRST SENTENCE line of the prompt (`script.js` line 221): a
falsy field (absent or empty string) emits nothing. -/
def firstSentenceSection (b : BookRecord) : String :=
  match b.firstSentence with
  | some s => if s = "" then "" else "FIRST SENTENCE: " ++ s
  | none => ""

/-- The AUTHOR BIO line of the prompt (`script.js` line 222): emitted
whenever `authorDetails` is present (arrays are truthy even empty),
falling back through `[0]?.bio ||`. -/
def authorBioSection (b : BookRecord) : String :=
  match b.authorDetails with
  | some ds =>
    "AUTHOR BIO: " ++
      (match ds with
       | d :: _ => if d.bio = "" then "No biography available" else d.bio
       | [] => "No biography available")
  | none => ""

/-- The BOOK EXCERPTS line of the prompt (`script.js` line 223):
emitted only for a non-empty excerpt list. -/
def excerptsSection (b : BookRecord) : String :=
  if b.excerpts.isEmpty then ""
  else "BOOK EXCERPTS: " ++ String.intercalate "\n" b.excerpts

/-- The lines of the `bookInfo` template literal of
`GeminiAPI.createPrompt` (`script.js` lines 210-224), before `trim`. -/
def promptLines (b : BookRecord) : List String :=
  ["",
   "EXACT BOOK DATA FROM OPENLIBRARY API:",
   "",
   "BOOK ID: " ++ b.id,
   "TITLE: \"" ++ b.title ++ "\"",
   "AUTHOR(S): " ++ joinComma b.authors,
   "PUBLICATION YEAR: " ++ (if b.publishedDate = "" then "Unknown" else b.publishedDate),
   "DESCRIPTION: " ++ (if b.description = "" then "No description available" else b.description),
   "CATEGORIES: " ++ joinComma b.categories,
   subjectsSection b,
   "PAGE COUNT: " ++ pageCountText b,
   firstSentenceSection b,
   authorBioSection b,
   excerptsSection b]

/-- The trimmed `bookInfo` string (`script.js` line 224). -/
def bookInfo (b : BookRecord) : String :=
  strTrim (String.intercalate "\n" (promptLines b))

/-- `GeminiAPI.createPrompt` (`script.js` lines 208-246). -/
def createPrompt (b : BookRecord) (question : String) : String :=
  strTrim (String.intercalate "\n"
    ["",
     "You are an expert book analyst. I will provide you with exact book data from the OpenLibrary API, and you must answer the user\x27s question using ONLY this specific book information.",
     "",
     bookInfo b,
     "",
     "USER\x27S SPECIFIC QUESTION: \"" ++ question ++ "\"",
     "",
     "CRITICAL INSTRUCTIONS:",
     "1. Use ONLY the book information provided above from OpenLibrary API",
     "2. Do not use any external knowledge or general information about similar books",
     "3. If the OpenLibrary data doesn\x27t contain information to answer the question, clearly state this",
     "4. Be specific and reference the exact data points from the OpenLibrary response",
     "5. If describing the book, use the exact description, categories, and subjects provided",
     "6. If discussing authors, use only the author information from the API",
     "7. Structure your response to be helpful and informative based on the available data",
     "",
     "IMPORTANT: Your response must be based SOLELY on the OpenLibrary data provided above. Do not add any external knowledge.",
     "",
     "Now, please answer the user\x27s question using only the provided OpenLibrary book data:",
     "        "])

/-- `GeminiAPI.generateFallbackResponse` (`script.js` lines 248-264):
a pure template over the book record's fields and the question. -/
def generateFallbackResponse (b : BookRecord) (question : String) : String :=
  String.intercalate "\n"
    ["I\x27m analyzing \"" ++ b.title ++ "\" by " ++ joinComma b.authors ++ " based on OpenLibrary data.",
     "",
     "Question: \"" ++ question ++ "\"",
     "",
     "OpenLibrary Book Data Available:",
     "• Title: " ++ b.title,
     "• Authors: " ++ joinComma b.authors,
     "• Published: " ++ (if b.publishedDate = "" then "Unknown" else b.publishedDate),
     "• Description: " ++ (if b.description = "" then "No description available" else b.description),
     "• Categories: " ++ joinComma b.categories,
     (match b.subjects with
      | some subj => "• Subjects: " ++ joinComma (subj.take 5)
      | none => ""),
     "",
     "Based on the OpenLibrary data, this book appears to be about: " ++
       (if b.description = "" then "topics related to " ++ joinComma b.categories
        else b.description) ++ ".",
     "",
     "For more specific answers, the complete book would provide additional details."]

/-- Outcome of the generative-language call: transport failure,
non-success status (with the error body's message), a response whose
shape lacks `candidates[0].content`, or a well-formed answer. -/
inductive GeminiOutcome where
  | netFailure
  | httpError (status : Nat) (message : String)
  | malformed
  | ok (answer : String)

/-- The call failed in any of the ways its `catch` handles. -/
def isGeminiFailure : GeminiOutcome → Bool
  | GeminiOutcome.ok _ => false
  | _ => true

/-- `GeminiAPI.askQuestionAboutBook` (`script.js` lines 151-206): a
well-formed response returns the first candidate's text; every failure
is caught and converted to the templated fallback. -/
def askQuestionAboutBook (o : GeminiOutcome) (b : BookRecord)
    (question : String) : String :=
  match o with
  | GeminiOutcome.ok answer => answer
  | _ => generateFallbackResponse b question

/-- C6: under any two forced failures of the generative-language call,
`askQuestionAboutBook` returns the same string for the same
(book, question) pair, namely the templated fallback built from the
book's fields and the question. -/
theorem c6_fallback_deterministic (o₁ o₂ : GeminiOutcome) (b : BookRecord)
    (question : String) (h₁ : isGeminiFailure o₁ = true)
    (h₂ : isGeminiFailure o₂ = true) :
    askQuestionAboutBook o₁ b question = askQuestionAboutBook o₂ b question ∧
    askQuestionAboutBook o₁ b question = generateFallbackResponse b question := by
  cases o₁ <;> cases o₂ <;>
    simp_all [askQuestionAboutBook, isGeminiFailure]

/-- Witness for C6: a transport failure and a 500 status yield the
identical fallback text for the sample book. -/
theorem c6_witness :
    askQuestionAboutBook GeminiOutcome.netFailure sampleHarryPotter "Who wrote it?" =
      askQuestionAboutBook (GeminiOutcome.httpError 500 "Internal error")
        sampleHarryPotter "Who wrote it?" :=
  (c6_fallback_deterministic GeminiOutcome.netFailure
    (GeminiOutcome.httpError 500 "Internal error") sampleHarryPotter
    "Who wrote it?" rfl rfl).1

/-- A concrete book whose optional fields are all empty: no subjects
field, no first sentence, no excerpts. -/
def bookNoOptionals : BookRecord :=
  { id := "OL123W"
    title := "Plain Book"
    authors := ["Anon"]
    publishedDate := "2001"
    description := "A plain book."
    categories := ["General"]
    thumbnail := none
    previewLink := "https://openlibrary.org/works/OL123W"
    pageCount := none
    averageRating := (4.0 : ℚ)
    isbn := none
    subjects := none
    firstSentence := none
    authorDetails := none
    excerpts := [] }

set_option maxRecDepth 100000 in
/-- Counterexample to C7 as stated: for a book with no subjects, no
first sentence and no excerpts, the constructed prompt still contains a
SUBJECTS section — emitted with the placeholder value
"No subjects available" rather than omitted. -/
theorem c7_counterexample :
    strIncludes (createPrompt bookNoOptionals "What is this book about?")
      "SUBJECTS: No subjects available" = true := by
  decide

/-- C7 amended: for every book with no first sentence and no excerpts,
the prompt omits the first-sentence and excerpts sections entirely
(their lines are empty), but the subjects section is always emitted:
with the placeholder "No subjects available" when the field is absent,
and with an empty value when it is present but empty. -/
theorem c7_optional_sections (b : BookRecord)
    (hfs : b.firstSentence = none) (hex : b.excerpts = []) :
    firstSentenceSection b = "" ∧ excerptsSection b = "" ∧
    (b.subjects = none → subjectsSection b = "SUBJECTS: No subjects available") ∧
    (b.subjects = some [] → subjectsSection b = "SUBJECTS: ") ∧
    promptLines b =
      ["",
       "EXACT BOOK DATA FROM OPENLIBRARY API:",
       "",
       "BOOK ID: " ++ b.id,
       "TITLE: \"" ++ b.title ++ "\"",
       "AUTHOR(S): " ++ joinComma b.authors,
       "PUBLICATION YEAR: " ++ (if b.publishedDate = "" then "Unknown" else b.publishedDate),
       "DESCRIPTION: " ++ (if b.description = "" then "No description available" else b.description),
       "CATEGORIES: " ++ joinComma b.categories,
       subjectsSection b,
       "PAGE COUNT: " ++ pageCountText b,
       "",
       authorBioSection b,
       ""] := by
  refine ⟨?_, ?_, ?_, ?_, ?_⟩
  · simp [firstSentenceSection, hfs]
  · simp [excerptsSection, hex]
  · intro hs; simp [subjectsSection, hs, joinComma]
  · intro hs
    simp only [subjectsSection, hs]
    rfl
  · simp [promptLines, firstSentenceSection, excerptsSection, hfs, hex]

/-- Witness for C7 amended: the concrete empty-optional book has empty
first-sentence and excerpt lines and the placeholder subjects line. -/
theorem c7_witness :
    firstSentenceSection bookNoOptionals = "" ∧
    excerptsSection bookNoOptionals = "" ∧
    subjectsSection bookNoOptionals = "SUBJECTS: No subjects available" :=
  ⟨(c7_optional_sections bookNoOptionals rfl rfl).1,
   (c7_optional_sections bookNoOptionals rfl rfl).2.1,
   (c7_optional_sections bookNoOptionals rfl rfl).2.2.1 rfl⟩

/-- State touched by `BookVerseApp.toggleFavorite` (`script.js` lines
541-571): the button's displayed icon class (`true` = `fas`, shown as
favorited) and the persisted `bookFavorites` list in local storage. The
icon is the sole source of truth for the toggle's direction; it is never
initialized from storage, so it can disagree with the list. -/
structure FavState where
  icon : Bool
  favorites : List String
deriving DecidableEq, Repr

/-- `BookVerseApp.toggleFavorite` (`script.js` lines 541-571): an
unfavorited icon pushes the id (if absent) and flips to favorited; a
favorited icon removes the first occurrence and flips back. -/
def toggleFavorite (bookId : String) (s : FavState) : FavState :=
  if s.icon = false then
    { icon := true
      favorites :=
        if bookId ∈ s.favorites then s.favorites
        else s.favorites ++ [bookId] }
  else
    { icon := false, favorites := s.favorites.erase bookId }

/-- Counterexample to C8 as stated: starting from a persisted set that
already contains the identifier while the button still displays
unfavorited (the state every button is in after a page reload, since
icons are never initialized from storage), toggling twice removes the
identifier — the persisted set does not return to its original state. -/
theorem c8_counterexample :
    (toggleFavorite "OL82565W" (toggleFavorite "OL82565W"
        { icon := false, favorites := ["OL82565W"] })).favorites ≠
      ["OL82565W"] := by
  decide

/-- C8 amended: when the button's displayed state agrees with the
persisted set's membership and the persisted list has no duplicates,
toggling the same identifier twice returns the persisted set to its
original membership. -/
theorem c8_double_toggle_membership (bookId : String) (s : FavState)
    (hsync : s.icon = true ↔ bookId ∈ s.favorites)
    (hnd : s.favorites.Nodup) :
    ∀ x, x ∈ (toggleFavorite bookId (toggleFavorite bookId s)).favorites ↔
      x ∈ s.favorites := by
  intro x
  by_cases hic : s.icon = true
  · -- favorited and present: remove, then re-append at the end
    have hmem : bookId ∈ s.favorites := hsync.mp hic
    have hnotmem : bookId ∉ s.favorites.erase bookId := hnd.not_mem_erase
    have e1 : toggleFavorite bookId s =
        { icon := false, favorites := s.favorites.erase bookId } := by
      simp [toggleFavorite, hic]
    have e2 : toggleFavorite bookId
        { icon := false, favorites := s.favorites.erase bookId } =
        { icon := true, favorites := s.favorites.erase bookId ++ [bookId] } := by
      simp [toggleFavorite, hnotmem]
    rw [e1, e2]
    simp only [List.mem_append, List.mem_singleton, hnd.mem_erase_iff]
    constructor
    · rintro (⟨_, hx⟩ | hx)
      · exact hx
      · exact hx ▸ hmem
    · intro hx
      by_cases hxb : x = bookId
      · exact Or.inr hxb
      · exact Or.inl ⟨hxb, hx⟩
  · -- unfavorited and absent: append, then erase it again
    have hnot : bookId ∉ s.favorites := fun hmem => hic (hsync.mpr hmem)
    have hic' : s.icon = false := by
      cases h : s.icon
      · rfl
      · exact absurd h hic
    have e1 : toggleFavorite bookId s =
        { icon := true, favorites := s.favorites ++ [bookId] } := by
      simp [toggleFavorite, hic', hnot]
    have e2 : toggleFavorite bookId
        { icon := true, favorites := s.favorites ++ [bookId] } =
        { icon := false, favorites := (s.favorites ++ [bookId]).erase bookId } := by
      simp [toggleFavorite]
    rw [e1, e2, List.erase_append_right _ hnot]
    simp

/-- Witness for C8 amended: a consistent empty start state is restored
after the double toggle. -/
theorem c8_witness :
    ("OL82565W" ∈ (toggleFavorite "OL82565W" (toggleFavorite "OL82565W"
        { icon := false, favorites := [] })).favorites) ↔
      "OL82565W" ∈ ([] : List String) :=
  c8_double_toggle_membership "OL82565W" { icon := false, favorites := [] }
    (by simp) List.nodup_nil "OL82565W"

/-- The loading-relevant state of `BookVerseApp`: the `isLoading` flag
plus counters of in-flight catalog searches (`loadBooks` awaiting
`searchBooks`) and in-flight detail fetches (`openBookModal` awaiting
`getBookDetails`). -/
structure UiState where
  isLoading : Bool
  searchInflight : Nat
  detailInflight : Nat
deriving DecidableEq, Repr

/-- The controller's transitions. `startSearch` models `loadBooks`
passing its guard (`script.js` line 405: `if (this.isLoading) return`)
and setting the flag (line 407); a guard-rejected call changes nothing
and needs no transition. `finishSearch` is the `finally` block (line
436) clearing the flag. `startDetail` and `finishDetail` model
`openBookModal` (`script.js` lines 490-510), which neither checks nor
sets `isLoading`. -/
inductive UiStep : UiState → UiState → Prop where
  | startSearch (s : UiState) (h : s.isLoading = false) :
      UiStep s { isLoading := true, searchInflight := s.searchInflight + 1,
                 detailInflight := s.detailInflight }
  | finishSearch (s : UiState) (h : 0 < s.searchInflight) :
      UiStep s { isLoading := false, searchInflight := s.searchInflight - 1,
                 detailInflight := s.detailInflight }
  | startDetail (s : UiState) :
      UiStep s { s with detailInflight := s.detailInflight + 1 }
  | finishDetail (s : UiState) (h : 0 < s.detailInflight) :
      UiStep s { s with detailInflight := s.detailInflight - 1 }

/-- States reachable from the controller's initial state
(`script.js` line 296: `this.isLoading = false`, nothing in flight). -/
inductive UiReachable : UiState → Prop where
  | init : UiReachable { isLoading := false, searchInflight := 0, detailInflight := 0 }
  | step {s t : UiState} : UiReachable s → UiStep s t → UiReachable t

/-- A reachable state with the flag set and both a search and a detail
fetch in flight. -/
def overlapState : UiState :=
  { isLoading := true, searchInflight := 1, detailInflight := 1 }

/-- Counterexample to C9 as stated: while the loading flag is set by an
in-flight search, a detail fetch can still be started — `openBookModal`
has no guard — so a reachable state carries two in-flight loads at
once. -/
theorem c9_counterexample :
    UiReachable overlapState ∧ overlapState.isLoading = true ∧
      1 < overlapState.searchInflight + overlapState.detailInflight := by
  refine ⟨?_, rfl, by decide⟩
  exact UiReachable.step
    (UiReachable.step UiReachable.init (UiStep.startSearch _ rfl))
    (UiStep.startDetail _)

/-- C9 amended: the boolean guard does prevent overlapping catalog
searches — in every reachable state the number of in-flight searches is
exactly the value of the loading flag, hence at most one — but detail
fetches are not guarded by the flag and may overlap freely. -/
theorem c9_search_guard (s : UiState) (h : UiReachable s) :
    s.searchInflight = (if s.isLoading then 1 else 0) := by
  induction h with
  | init => rfl
  | step hr hstep ih =>
    cases hstep with
    | startSearch hld =>
      rw [hld] at ih
      simp only [Bool.false_eq_true, if_false] at ih
      simp [ih]
    | finishSearch hpos =>
      simp only []
      split at ih <;> simp <;> omega
    | startDetail => simpa using ih
    | finishDetail hpos => simpa using ih

/-- Witness for C9 amended: in the reachable overlap state the search
counter equals the set flag's value, one. -/
theorem c9_witness : overlapState.searchInflight = 1 := by
  have h := c9_search_guard overlapState
    (UiReachable.step
      (UiReachable.step UiReachable.init (UiStep.startSearch _ rfl))
      (UiStep.startDetail _))
  exact h

/-- A search document whose subjects field is present but empty: the
empty array is truthy in JavaScript, so the `'General'` default is not
taken and the categories come out empty. -/
def docEmptySubjects : SearchDoc :=
  { key := some "/works/OL1W"
    title := some "Subjectless"
    author_name := some ["A. Nonymous"]
    first_publish_year := some 2000
    description := none
    subject := some []
    cover_i := none
    number_of_pages_median := none
    isbn := none }

/-- Counterexample to C10 as stated: a remote response carrying an empty
subjects list produces a record with no category tags at all, not the
single 'General' tag the claim promises for a response with no
subjects. -/
theorem c10_counterexample :
    (docToBook 0 docEmptySubjects).categories = [] ∧
    (docToBook 0 docEmptySubjects).categories ≠ ["General"] := by
  constructor <;> decide

/-- C10 amended: search-path records carry at most 3 category tags and
detail-path records at most 5, regardless of how many subjects the
response contains; when the subjects field is absent the categories
default to the single 'General' tag, but when it is present and empty
the categories are empty. -/
theorem c10_category_caps :
    (∀ (i : Nat) (d : SearchDoc), (docToBook i d).categories.length ≤ 3) ∧
    (∀ (bookId : String) (w : WorkData),
      (buildDetailRecord bookId w).categories.length ≤ 5) ∧
    (∀ (i : Nat) (d : SearchDoc), d.subject = none →
      (docToBook i d).categories = ["General"]) ∧
    (∀ (bookId : String) (w : WorkData), w.subjects = none →
      (buildDetailRecord bookId w).categories = ["General"]) ∧
    (∀ (i : Nat) (d : SearchDoc), d.subject = some [] →
      (docToBook i d).categories = []) := by
  refine ⟨?_, ?_, ?_, ?_, ?_⟩
  · intro i d
    cases hd : d.subject with
    | none => simp [docToBook, hd]
    | some subj => simp [docToBook, hd]
  · intro bookId w
    cases hw : w.subjects with
    | none => simp [buildDetailRecord, hw]
    | some subj => simp [buildDetailRecord, hw]
  · intro i d hd
    simp [docToBook, hd]
  · intro bookId w hw
    simp [buildDetailRecord, hw]
  · intro i d hd
    simp [docToBook, hd]

/-- A search document with no subjects field at all. -/
def docAbsentSubjects : SearchDoc :=
  { docEmptySubjects with subject := none }

/-- Witness for C10 amended: the absent-subjects document defaults to
the single 'General' tag and respects the 3-tag cap. -/
theorem c10_witness :
    (docToBook 0 docAbsentSubjects).categories = ["General"] ∧
    (docToBook 0 docAbsentSubjects).categories.length ≤ 3 :=
  ⟨c10_category_caps.2.2.1 0 docAbsentSubjects rfl,
   c10_category_caps.1 0 docAbsentSubjects⟩

end BookVerse
